import Mathlib

/-!
Verification of the ETL-Automated-Tool repository.

Two subsystems are embedded here:

1. The cross-sheet lookup/matching engine and its insights aggregator.
   The repository ships only the presentation layer; the engine itself
   lives in a backend service visible through its HTTP contract, so the
   definitions in the `Engine` namespace are modelled from the spec.

2. The frontend session store (a Zustand store): step navigation,
   activity log, preview caching and the pipeline API actions.  These
   are embedded directly from the store source (the `useETLStore`
   module).  Asynchronous `fetch` results are passed in explicitly as a
   `FetchOutcome` value and the wall clock as a `String` timestamp, so
   every action becomes a pure function on the store state.
-/

namespace Engine

/-- Modelled from the spec: the fixed status taxonomy of the
Lookup/Matching Engine, `{D, 0, X, NOT_FOUND}` (the `0` status is named
`S0`). -/
inductive Status where
  | D
  | S0
  | X
  | NOT_FOUND
deriving DecidableEq, Repr

/-- Modelled from the spec: the three statuses a Master row's
status-bearing field can carry (`{D, 0, X}`). -/
inductive MStatus where
  | D
  | S0
  | X
deriving DecidableEq, Repr

/-- ASCII whitespace recognised by the trimming step. -/
def isSpaceChar (c : Char) : Bool :=
  c == ' ' || c == '\t' || c == '\n' || c == '\r'

/-- Strip leading and trailing whitespace from a character list. -/
def trimChars (l : List Char) : List Char :=
  ((l.dropWhile isSpaceChar).reverse.dropWhile isSpaceChar).reverse

/-- Modelled from the spec: key normalization used both when indexing
Master rows and when looking up Target rows — trimmed and case-folded. -/
def normalizeKey (s : String) : String :=
  ⟨(trimChars s.data).map Char.toLower⟩

/-- Modelled from the spec: a Master row, reduced to the fields the
lookup consults — its key-column value (null allowed) and its optional
status-bearing field already mapped through the `{D, 0, X}` taxonomy. -/
structure MasterRow where
  key : Option String
  status : Option MStatus
deriving DecidableEq, Repr

/-- Modelled from the spec: a Target row, reduced to its key-column
value (null allowed). -/
structure TargetRow where
  key : Option String
deriving DecidableEq, Repr

/-- Modelled from the spec: one LookupResult row — the original Target
row together with its resolved status. -/
structure LookupResultRow where
  row : TargetRow
  status : Status
deriving DecidableEq, Repr

/-- Modelled from the spec: the Master index maps a normalized key to
the first Master row whose normalized key matches (first occurrence
wins on duplicates). -/
def findMaster (master : List MasterRow) (k : String) : Option MasterRow :=
  master.find? fun r =>
    match r.key with
    | none => false
    | some mk => normalizeKey mk == normalizeKey k

/-- Modelled from the spec: the status a matched Master row confers —
its status field mapped through the taxonomy, defaulting to `D` when
the row carries no explicit status. -/
def rowStatus (r : MasterRow) : Status :=
  match r.status with
  | some .D => .D
  | some .S0 => .S0
  | some .X => .X
  | none => .D

/-- Modelled from the spec: the status resolved for one key value — a
null/empty key gives `NOT_FOUND`, otherwise the normalized key is
looked up in the Master index; no match gives `NOT_FOUND`. -/
def lookupKeyStatus (master : List MasterRow) : Option String → Status
  | none => .NOT_FOUND
  | some k =>
    if normalizeKey k == "" then .NOT_FOUND
    else ((findMaster master k).map rowStatus).getD .NOT_FOUND

/-- Modelled from the spec: the status resolved for one Target row. -/
def lookupStatus (master : List MasterRow) (t : TargetRow) : Status :=
  lookupKeyStatus master t.key

/-- Modelled from the spec: `lookup(cleanedMaster, cleanedTarget, key)`
produces one LookupResult row per Target row, in Target row order. -/
def lookup (master : List MasterRow) (target : List TargetRow) : List LookupResultRow :=
  target.map fun t => { row := t, status := lookupStatus master t }

/-- Modelled from the spec: a status counts as a successful match when
it lies in `{D, 0, X}` (the key was found in Master). -/
def isSuccess : Status → Bool
  | .NOT_FOUND => false
  | _ => true

/-- Modelled from the spec: percentage with one decimal, represented in
tenths of a percent (so `66.7%` is `667`); round-half-up, and `0` when
the denominator is zero (no division by zero). -/
def roundPctTenths (num total : Nat) : Nat :=
  if total = 0 then 0 else (num * 2000 + total) / (2 * total)

/-- Modelled from the spec: the LookupSummary aggregate.  `match_rate`
and the activation percentages are kept in tenths of a percent. -/
structure LookupSummary where
  total_records : Nat
  successful_matches : Nat
  failed_matches : Nat
  countD : Nat
  countS0 : Nat
  countX : Nat
  countNotFound : Nat
  matchRateTenths : Nat
deriving DecidableEq, Repr

/-- Two Master rows are equivalent when their key values agree up to
normalization (case/whitespace) and their status fields agree. -/
def rowEquiv (r1 r2 : MasterRow) : Prop :=
  r1.key.map normalizeKey = r2.key.map normalizeKey ∧ r1.status = r2.status

/-- Modelled from the spec: `summarize(lookupResults) -> LookupSummary`. -/
def summarize (rs : List LookupResultRow) : LookupSummary :=
  let total := rs.length
  let succm := rs.countP fun r => isSuccess r.status
  { total_records := total
    successful_matches := succm
    failed_matches := rs.countP fun r => r.status == .NOT_FOUND
    countD := rs.countP fun r => r.status == .D
    countS0 := rs.countP fun r => r.status == .S0
    countX := rs.countP fun r => r.status == .X
    countNotFound := rs.countP fun r => r.status == .NOT_FOUND
    matchRateTenths := roundPctTenths succm total }

end Engine

namespace Store

/-- Log severity levels of the store's `LogEntry`. -/
inductive LogLevel where
  | info
  | success
  | warning
  | error
deriving DecidableEq, Repr

/-- One entry of the activity log (`LogEntry` in the store source).
The timestamp string is supplied by the caller, standing for the wall
clock the store reads. -/
structure LogEntry where
  timestamp : String
  message : String
  level : LogLevel
deriving DecidableEq, Repr

/-- Opaque dynamic (JSON-shaped) values held in the `any`-typed session
fields and in the preview cache; the store never inspects them. -/
inductive Dyn where
  | mk : Nat → Dyn
deriving DecidableEq, Repr

/-- The `SessionData` record of the store.  `Record<string, any>` maps
are association lists in insertion order, matching JS object key
order. -/
structure SessionData where
  fileId : Option String
  filename : Option String
  sheetNames : List String
  masterSheet : Option String
  targetSheet : Option String
  previewData : Option Dyn
  cleanResult : Option Dyn
  columnInsights : Option Dyn
  availableColumns : List String
  lookupResult : Option Dyn
  lookupInsights : Option Dyn
  updateResult : Option Dyn
  sharepointConfig : Option Dyn
  logs : List LogEntry
  cache : List (String × Dyn)
deriving DecidableEq, Repr

/-- `initialSessionData` from the store source. -/
def initialSessionData : SessionData where
  fileId := none
  filename := none
  sheetNames := []
  masterSheet := none
  targetSheet := none
  previewData := none
  cleanResult := none
  columnInsights := none
  availableColumns := []
  lookupResult := none
  lookupInsights := none
  updateResult := none
  sharepointConfig := none
  logs := []
  cache := []

/-- The store state (`ETLState` stripped of its action closures). -/
structure ETLState where
  currentStep : Int
  isLoading : Bool
  error : Option String
  sessionData : SessionData
deriving DecidableEq, Repr

/-- The state the store is created with. -/
def initialState : ETLState where
  currentStep := 0
  isLoading := false
  error := none
  sessionData := initialSessionData

/-- JS truthiness test of a nullable string: `null` and `""` are
falsy. -/
def strFalsy : Option String → Bool
  | none => true
  | some s => s == ""

/-- JS `x || default` on a nullable string: the fallback fires on
`null` and on the empty string. -/
def jsOr (o : Option String) (d : String) : String :=
  match o with
  | none => d
  | some m => if m == "" then d else m

/-- `addLog`: appends one entry and keeps only the last 50 entries
(`slice(-50)` in the source). -/
def addLog (ts msg : String) (lvl : LogLevel) (s : ETLState) : ETLState :=
  let l := s.sessionData.logs ++ [⟨ts, msg, lvl⟩]
  { s with sessionData := { s.sessionData with logs := l.drop (l.length - 50) } }

/-- `addLog` with its `level` parameter left to the default `info`. -/
def addLogDefault (ts msg : String) (s : ETLState) : ETLState :=
  addLog ts msg .info s

/-- Fold a sequence of `addLog` calls over the store state. -/
def applyLogs (calls : List (String × String × LogLevel)) (s : ETLState) : ETLState :=
  calls.foldl (fun st c => addLog c.1 c.2.1 c.2.2 st) s

/-- `getMaxAllowedStep`: the furthest wizard step reachable given which
pipeline outputs are present. -/
def getMaxAllowedStep (s : ETLState) : Int :=
  if strFalsy s.sessionData.fileId then 0
  else if s.sessionData.previewData.isNone then 1
  else if s.sessionData.cleanResult.isNone then 2
  else if s.sessionData.columnInsights.isNone then 3
  else if s.sessionData.lookupResult.isNone then 4
  else if s.sessionData.lookupInsights.isNone then 5
  else if s.sessionData.updateResult.isNone then 6
  else 7

/-- The presence flags of the seven pipeline stage outputs, in pipeline
order (file, preview, clean result, column insights, lookup result,
lookup insights, update result).  Spec-side view used to compare
`getMaxAllowedStep` against the claim. -/
def stageOutputs (s : ETLState) : List Bool :=
  [!strFalsy s.sessionData.fileId,
   s.sessionData.previewData.isSome,
   s.sessionData.cleanResult.isSome,
   s.sessionData.columnInsights.isSome,
   s.sessionData.lookupResult.isSome,
   s.sessionData.lookupInsights.isSome,
   s.sessionData.updateResult.isSome]

/-- Index of the first missing stage output, 7 when all are present:
the navigation bound as the claim words it. -/
def firstMissingStage (s : ETLState) : Nat :=
  (stageOutputs s).findIdx (fun b => !b)

/-- `goToStep`. -/
def goToStep (ts : String) (step : Int) (s : ETLState) : ETLState :=
  if 0 ≤ step ∧ step ≤ getMaxAllowedStep s then
    addLog ts ("Navigated to step " ++ toString (step + 1)) .info { s with currentStep := step }
  else s

/-- `nextStep`. -/
def nextStep (s : ETLState) : ETLState :=
  if s.currentStep < getMaxAllowedStep s then
    { s with currentStep := s.currentStep + 1 }
  else s

/-- `previousStep`. -/
def previousStep (ts : String) (s : ETLState) : ETLState :=
  if 0 < s.currentStep then
    addLog ts ("Went back to step " ++ toString s.currentStep) .info
      { s with currentStep := s.currentStep - 1 }
  else s

/-- `resetSession`. -/
def resetSession (_ : ETLState) : ETLState :=
  { currentStep := 0, isLoading := false, error := none, sessionData := initialSessionData }

/-- The parsed JSON of a generic backend response: its `success` flag,
optional `error` message, and the response object as the action stores
it. -/
structure ApiResult where
  success : Bool
  errorMsg : Option String
  payload : Dyn
deriving DecidableEq, Repr

/-- The parsed JSON of a `/preview-session` response; `masterRows` and
`targetRows` are the row counts the action reads back out of
`previews` for its log line. -/
structure PreviewResult where
  success : Bool
  errorMsg : Option String
  previews : Dyn
  masterRows : Nat
  targetRows : Nat
deriving DecidableEq, Repr

/-- Outcome of one `fetch` round-trip, passed to an action as an
explicit input: the fetch or `json()` threw (carrying `e.message` when
the thrown value was an `Error`), or the response was not `ok`, or a
parsed result of type `ρ` came back. -/
inductive FetchOutcome (ρ : Type) where
  | thrown (msg : Option String)
  | httpError (status : Nat) (statusText : String)
  | ok (result : ρ)
deriving DecidableEq, Repr

/-- The shared catch/finally tail of every API action:
`setError(msg)`, `addLog(msg, error)`, then `setLoading(false)`. -/
def failTail (ts msg : String) (s : ETLState) : ETLState :=
  { (addLog ts msg .error { s with error := some msg }) with isLoading := false }

/-- Does an outcome take the catch path of an action (HTTP not ok, a
thrown error, or a parsed result with `success: false`)? -/
def fetchFails (o : FetchOutcome ApiResult) : Bool :=
  match o with
  | .thrown _ => true
  | .httpError _ _ => true
  | .ok r => !r.success

/-- The composite cache key `preview_` + master + `_` + target used by
`previewSheets`. -/
def previewCacheKey (ms tg : String) : String :=
  "preview_" ++ ms ++ "_" ++ tg

/-- JS object spread `{...cache, [key]: value}`: overwrite in place
when the key exists, append otherwise. -/
def cacheInsert (c : List (String × Dyn)) (k : String) (v : Dyn) : List (String × Dyn) :=
  if c.any (fun p => p.1 == k) then
    c.map (fun p => if p.1 == k then (k, v) else p)
  else c ++ [(k, v)]

/-- `previewSheets(masterSheet, targetSheet)`: served from the cache
when the composite key is present (the fetch outcome is never
consulted), otherwise performs the request and caches a successful
result. -/
def previewSheets (ms tg ts : String) (o : FetchOutcome PreviewResult) (s : ETLState) :
    ETLState :=
  let s1 : ETLState := { s with isLoading := true, error := none }
  match s.sessionData.cache.lookup (previewCacheKey ms tg) with
  | some v =>
    let s2 := { s1 with sessionData := { s1.sessionData with
      masterSheet := some ms, targetSheet := some tg, previewData := some v } }
    { (addLog ts "Preview loaded from cache (instant!)" .info s2) with isLoading := false }
  | none =>
    match o with
    | .httpError st tx => failTail ts ("Preview failed: " ++ toString st ++ " " ++ tx) s1
    | .thrown m => failTail ts (m.getD "Preview failed") s1
    | .ok r =>
      if r.success then
        let s2 := { s1 with sessionData := { s1.sessionData with
          masterSheet := some ms, targetSheet := some tg, previewData := some r.previews,
          cache := cacheInsert s.sessionData.cache (previewCacheKey ms tg) r.previews } }
        { (addLog ts ("Preview ready! " ++ ms ++ ": " ++ toString r.masterRows
            ++ " rows, " ++ tg ++ ": " ++ toString r.targetRows ++ " rows") .success s2)
          with isLoading := false }
      else failTail ts (jsOr r.errorMsg "Preview failed") s1

/-- `loadLookupColumns`: fills `availableColumns` on a fully successful
response; every failure mode is swallowed (`console.error` only), so
the outcome is collapsed to the columns delivered, if any. -/
def loadLookupColumns (oCols : Option (List String)) (s : ETLState) : ETLState :=
  match oCols with
  | none => s
  | some cols => { s with sessionData := { s.sessionData with availableColumns := cols } }

/-- `generateColumnInsights`: on success stores the response, moves to
step 4, logs, and chains into `loadLookupColumns`. -/
def generateColumnInsights (ts : String) (o : FetchOutcome ApiResult)
    (oCols : Option (List String)) (s : ETLState) : ETLState :=
  let s1 : ETLState := { s with isLoading := true, error := none }
  match o with
  | .httpError st tx => failTail ts ("Column insights failed: " ++ toString st ++ " " ++ tx) s1
  | .thrown m => failTail ts (m.getD "Column insights failed") s1
  | .ok r =>
    if r.success then
      let s2 := { s1 with
        sessionData := { s1.sessionData with columnInsights := some r.payload },
        currentStep := 4 }
      let s3 := addLog ts "Column insights generated successfully!" .success s2
      { (loadLookupColumns oCols s3) with isLoading := false }
    else failTail ts (jsOr r.errorMsg "Column insights failed") s1

/-- `generateLookupInsights`: on success stores the response, moves to
step 6 and logs. -/
def generateLookupInsights (ts : String) (o : FetchOutcome ApiResult) (s : ETLState) :
    ETLState :=
  let s1 : ETLState := { s with isLoading := true, error := none }
  match o with
  | .httpError st tx => failTail ts ("Lookup insights failed: " ++ toString st ++ " " ++ tx) s1
  | .thrown m => failTail ts (m.getD "Lookup insights failed") s1
  | .ok r =>
    if r.success then
      let s2 := { s1 with
        sessionData := { s1.sessionData with lookupInsights := some r.payload },
        currentStep := 6 }
      { (addLog ts "Lookup insights generated successfully!" .success s2)
        with isLoading := false }
    else failTail ts (jsOr r.errorMsg "Lookup insights failed") s1

/-- `cleanData`: on success stores the response in `cleanResult`, moves
to step 3, logs, and chains into `generateColumnInsights` (which itself
chains into `loadLookupColumns`); any failure runs the catch tail. -/
def cleanData (ts : String) (o : FetchOutcome ApiResult) (oIns : FetchOutcome ApiResult)
    (oCols : Option (List String)) (s : ETLState) : ETLState :=
  let s1 : ETLState := { s with isLoading := true, error := none }
  match o with
  | .httpError st tx => failTail ts ("Cleaning failed: " ++ toString st ++ " " ++ tx) s1
  | .thrown m => failTail ts (m.getD "Cleaning failed") s1
  | .ok r =>
    if r.success then
      let s2 := { s1 with
        sessionData := { s1.sessionData with cleanResult := some r.payload },
        currentStep := 3 }
      let s3 := addLog ts "Data cleaning completed successfully!" .success s2
      { (generateColumnInsights ts oIns oCols s3) with isLoading := false }
    else failTail ts (jsOr r.errorMsg "Cleaning failed") s1

/-- `performLookup(lookupColumn)`: on success stores the response in
`lookupResult`, moves to step 5, logs, and chains into
`generateLookupInsights`; any failure runs the catch tail. -/
def performLookup (col ts : String) (o : FetchOutcome ApiResult)
    (oIns : FetchOutcome ApiResult) (s : ETLState) : ETLState :=
  let s1 : ETLState := { s with isLoading := true, error := none }
  match o with
  | .httpError st tx => failTail ts ("Lookup failed: " ++ toString st ++ " " ++ tx) s1
  | .thrown m => failTail ts (m.getD "Lookup failed") s1
  | .ok r =>
    if r.success then
      let s2 := { s1 with
        sessionData := { s1.sessionData with lookupResult := some r.payload },
        currentStep := 5 }
      let s3 := addLog ts ("Lookup completed using column: " ++ col) .success s2
      { (generateLookupInsights ts oIns s3) with isLoading := false }
    else failTail ts (jsOr r.errorMsg "Lookup failed") s1

/-- `quickPreview`: throws outside any catch when no file is loaded
(JS truthiness: a null or empty `fileId`) or fewer than two sheet names
are known; otherwise delegates to `previewSheets` on the first two
sheet names.  The first component is the thrown message (`none` when
nothing was thrown), the second the resulting store state — unchanged
on a throw. -/
def quickPreview (ts : String) (o : FetchOutcome PreviewResult) (s : ETLState) :
    Option String × ETLState :=
  if strFalsy s.sessionData.fileId ∨ s.sessionData.sheetNames.length < 2 then
    (some "Need at least 2 sheets for quick preview", s)
  else
    (none, previewSheets (s.sessionData.sheetNames.getD 0 "")
      (s.sessionData.sheetNames.getD 1 "") ts o s)

end Store

namespace Engine

theorem countP_not_add (l : List LookupResultRow) (p : LookupResultRow → Bool) :
    l.countP p + l.countP (fun r => !(p r)) = l.length := by
  induction l with
  | nil => rfl
  | cons a l ih =>
    simp only [List.countP_cons, List.length_cons]
    by_cases h : p a = true <;> simp [h] <;> omega

theorem rowStatus_congr {r1 r2 : MasterRow} (h : r1.status = r2.status) :
    rowStatus r1 = rowStatus r2 := by
  unfold rowStatus
  rw [h]

theorem findMaster_key_congr (m : List MasterRow) {k1 k2 : String}
    (h : normalizeKey k1 = normalizeKey k2) : findMaster m k1 = findMaster m k2 := by
  unfold findMaster
  simp only [h]

theorem findMaster_congr (k : String) {m1 m2 : List MasterRow}
    (h : List.Forall₂ rowEquiv m1 m2) :
    (findMaster m1 k).map rowStatus = (findMaster m2 k).map rowStatus := by
  induction h with
  | nil => rfl
  | cons hab htail ih =>
    rename_i r1 r2 l1 l2
    obtain ⟨hk, hs⟩ := hab
    have hpred : (match r1.key with
        | none => false
        | some mk => normalizeKey mk == normalizeKey k)
        = (match r2.key with
        | none => false
        | some mk => normalizeKey mk == normalizeKey k) := by
      cases hk1 : r1.key <;> cases hk2 : r2.key <;> simp [hk1, hk2] at hk ⊢
      rw [hk]
    unfold findMaster at ih ⊢
    rw [List.find?_cons, List.find?_cons]
    rw [hpred]
    cases hp : (match r2.key with
        | none => false
        | some mk => normalizeKey mk == normalizeKey k) with
    | false => exact ih
    | true =>
      show some (rowStatus r1) = some (rowStatus r2)
      rw [rowStatus_congr hs]

/-- C1: for every LookupResult set, the LookupSummary satisfies
`successful_matches + failed_matches = total_records`, where
`successful_matches` counts rows with status in `{D, 0, X}` and
`failed_matches` counts rows with status `NOT_FOUND`. -/
theorem summary_matches_partition (rs : List LookupResultRow) :
    (summarize rs).successful_matches + (summarize rs).failed_matches
        = (summarize rs).total_records
    ∧ (summarize rs).successful_matches = rs.countP (fun r => isSuccess r.status)
    ∧ (summarize rs).failed_matches = rs.countP (fun r => r.status == Status.NOT_FOUND) := by
  refine ⟨?_, rfl, rfl⟩
  show rs.countP (fun r => isSuccess r.status)
      + rs.countP (fun r => r.status == Status.NOT_FOUND) = rs.length
  have h : (fun r : LookupResultRow => r.status == Status.NOT_FOUND)
      = (fun r : LookupResultRow => !(isSuccess r.status)) := by
    funext r
    rcases r with ⟨row, st⟩
    cases st <;> rfl
  rw [h]
  exact countP_not_add rs _

theorem roundPctTenths_le (m t : Nat) (h : m ≤ t) : roundPctTenths m t ≤ 1000 := by
  unfold roundPctTenths
  by_cases ht : t = 0
  · simp [ht]
  · rw [if_neg ht]
    rw [Nat.div_le_iff_le_mul_add_pred (by omega)]
    omega

theorem roundPctTenths_approx (m t : Nat) (ht : 0 < t) :
    2000 * m ≤ 2 * t * roundPctTenths m t + t
    ∧ 2 * t * roundPctTenths m t ≤ 2000 * m + t := by
  unfold roundPctTenths
  rw [if_neg (by omega)]
  have e := Nat.div_add_mod (m * 2000 + t) (2 * t)
  have hlt : (m * 2000 + t) % (2 * t) < 2 * t := Nat.mod_lt _ (by omega)
  generalize hq : (m * 2000 + t) / (2 * t) = q at e ⊢
  generalize hr : (m * 2000 + t) % (2 * t) = r at e hlt
  generalize hX : 2 * t * q = X at e ⊢
  omega

/-- C2: `match_rate` (kept in tenths of a percent) lies in `[0, 100]`;
it is `0` when `total_records = 0` (no division by zero), and when
`total_records > 0` it is `successful_matches / total_records * 100`
rounded to one decimal (within half a tenth of the exact ratio). -/
theorem match_rate_in_range (rs : List LookupResultRow) :
    (summarize rs).matchRateTenths ≤ 1000
    ∧ ((summarize rs).total_records = 0 → (summarize rs).matchRateTenths = 0)
    ∧ (0 < (summarize rs).total_records →
        2000 * (summarize rs).successful_matches
            ≤ 2 * (summarize rs).total_records * (summarize rs).matchRateTenths
              + (summarize rs).total_records
        ∧ 2 * (summarize rs).total_records * (summarize rs).matchRateTenths
            ≤ 2000 * (summarize rs).successful_matches + (summarize rs).total_records) := by
  have hm : (summarize rs).successful_matches = rs.countP (fun r => isSuccess r.status) := rfl
  have ht : (summarize rs).total_records = rs.length := rfl
  have hr : (summarize rs).matchRateTenths
      = roundPctTenths (rs.countP fun r => isSuccess r.status) rs.length := rfl
  rw [hm, ht, hr]
  have hle : (rs.countP fun r => isSuccess r.status) ≤ rs.length := List.countP_le_length _
  refine ⟨roundPctTenths_le _ _ hle, ?_, ?_⟩
  · intro h0
    rw [h0]
    unfold roundPctTenths
    simp
  · intro hpos
    exact roundPctTenths_approx _ _ hpos

/-- C2 witness: evaluated on a concrete two-row result set with one
match, where the match rate is 50.0 percent. -/
theorem match_rate_in_range_witness :
    2000 * (summarize [⟨⟨some "k1"⟩, Status.D⟩, ⟨⟨none⟩, Status.NOT_FOUND⟩]).successful_matches
        ≤ 2 * (summarize [⟨⟨some "k1"⟩, Status.D⟩, ⟨⟨none⟩, Status.NOT_FOUND⟩]).total_records
            * (summarize [⟨⟨some "k1"⟩, Status.D⟩, ⟨⟨none⟩, Status.NOT_FOUND⟩]).matchRateTenths
          + (summarize [⟨⟨some "k1"⟩, Status.D⟩, ⟨⟨none⟩, Status.NOT_FOUND⟩]).total_records
    ∧ 2 * (summarize [⟨⟨some "k1"⟩, Status.D⟩, ⟨⟨none⟩, Status.NOT_FOUND⟩]).total_records
            * (summarize [⟨⟨some "k1"⟩, Status.D⟩, ⟨⟨none⟩, Status.NOT_FOUND⟩]).matchRateTenths
        ≤ 2000 * (summarize [⟨⟨some "k1"⟩, Status.D⟩, ⟨⟨none⟩, Status.NOT_FOUND⟩]).successful_matches
          + (summarize [⟨⟨some "k1"⟩, Status.D⟩, ⟨⟨none⟩, Status.NOT_FOUND⟩]).total_records :=
  (match_rate_in_range [⟨⟨some "k1"⟩, Status.D⟩, ⟨⟨none⟩, Status.NOT_FOUND⟩]).2.2 (by decide)

/-- C3: lookup is invariant under case/whitespace variation of key
values, on the Target side (two keys with the same normalization get
the same status) and on the Master side (normalized-equivalent Master
tables give the same statuses); the spec scenario evaluates to
`[D, X, NOT_FOUND]` with a match rate of 66.7 percent. -/
theorem lookup_normalization_invariant (m1 m2 : List MasterRow) (t : TargetRow)
    (k1 k2 : String) (hm : List.Forall₂ rowEquiv m1 m2)
    (hk : normalizeKey k1 = normalizeKey k2) :
    (lookupStatus m1 ⟨some k1⟩ = lookupStatus m1 ⟨some k2⟩
      ∧ lookupStatus m1 t = lookupStatus m2 t)
    ∧ ((lookup [⟨some "A1", some MStatus.D⟩, ⟨some "A2", some MStatus.X⟩]
          [⟨some "a1 "⟩, ⟨some " A2"⟩, ⟨some "A3"⟩]).map LookupResultRow.status
        = [Status.D, Status.X, Status.NOT_FOUND]
      ∧ (summarize (lookup [⟨some "A1", some MStatus.D⟩, ⟨some "A2", some MStatus.X⟩]
          [⟨some "a1 "⟩, ⟨some " A2"⟩, ⟨some "A3"⟩])).matchRateTenths = 667) := by
  refine ⟨⟨?_, ?_⟩, by decide⟩
  · show lookupKeyStatus m1 (some k1) = lookupKeyStatus m1 (some k2)
    simp only [lookupKeyStatus]
    rw [hk, findMaster_key_congr m1 hk]
  · show lookupKeyStatus m1 t.key = lookupKeyStatus m2 t.key
    cases t.key with
    | none => rfl
    | some k =>
      simp only [lookupKeyStatus]
      rw [findMaster_congr k hm]

/-- C3 witness: instantiated with a one-row Master whose key is a
case/whitespace variant in the second copy. -/
theorem lookup_normalization_invariant_witness :
    lookupStatus [⟨some "B1 ", some MStatus.D⟩] ⟨some "b1"⟩
        = lookupStatus [⟨some "B1 ", some MStatus.D⟩] ⟨some " B1"⟩
    ∧ lookupStatus [⟨some "B1 ", some MStatus.D⟩] ⟨some "b1"⟩
        = lookupStatus [⟨some "b1", some MStatus.D⟩] ⟨some "b1"⟩ :=
  (lookup_normalization_invariant [⟨some "B1 ", some MStatus.D⟩]
    [⟨some "b1", some MStatus.D⟩] ⟨some "b1"⟩ "b1" " B1"
    (List.Forall₂.cons ⟨by decide, rfl⟩ List.Forall₂.nil) (by decide)).1

/-- C4: every Target row whose key value is null or empty resolves to
`NOT_FOUND`, whatever the Master table contains. -/
theorem null_or_empty_key_not_found (master : List MasterRow) (t : TargetRow)
    (h : t.key = none ∨ t.key = some "") :
    lookupStatus master t = Status.NOT_FOUND := by
  unfold lookupStatus
  rcases h with h | h <;> rw [h]
  · rfl
  · simp only [lookupKeyStatus]
    rw [if_pos (by decide : (normalizeKey "" == "") = true)]

/-- C4 witness: a null key and an empty key against a nonempty Master. -/
theorem null_or_empty_key_not_found_witness :
    lookupStatus [⟨some "A1", some MStatus.D⟩] ⟨none⟩ = Status.NOT_FOUND
    ∧ lookupStatus [⟨some "A1", some MStatus.D⟩] ⟨some ""⟩ = Status.NOT_FOUND :=
  ⟨null_or_empty_key_not_found [⟨some "A1", some MStatus.D⟩] ⟨none⟩ (Or.inl rfl),
   null_or_empty_key_not_found [⟨some "A1", some MStatus.D⟩] ⟨some ""⟩ (Or.inr rfl)⟩

end Engine

namespace Store

theorem applyLogs_cons (c : String × String × LogLevel) (rest : List (String × String × LogLevel))
    (s : ETLState) : applyLogs (c :: rest) s = applyLogs rest (addLog c.1 c.2.1 c.2.2 s) := rfl

theorem addLog_logs_len (ts msg : String) (lvl : LogLevel) (s : ETLState) :
    (addLog ts msg lvl s).sessionData.logs.length = min (s.sessionData.logs.length + 1) 50 := by
  simp only [addLog, List.length_drop, List.length_append, List.length_cons, List.length_nil]
  omega

theorem addLog_logs_le (ts msg : String) (lvl : LogLevel) (s : ETLState) :
    (addLog ts msg lvl s).sessionData.logs.length ≤ 50 := by
  rw [addLog_logs_len]
  omega

theorem applyLogs_len_le (calls : List (String × String × LogLevel)) :
    ∀ s : ETLState, calls ≠ [] → (applyLogs calls s).sessionData.logs.length ≤ 50 := by
  induction calls with
  | nil => intro s h; exact absurd rfl h
  | cons c rest ih =>
    intro s _
    rw [applyLogs_cons]
    cases hr : rest with
    | nil => exact addLog_logs_le c.1 c.2.1 c.2.2 s
    | cons d tail =>
      exact hr ▸ ih (addLog c.1 c.2.1 c.2.2 s) (by simp [hr])

theorem suffix_append_same {α : Type} {l1 l2 t : List α} (h : l1 <:+ l2) :
    l1 ++ t <:+ l2 ++ t := by
  obtain ⟨p, hp⟩ := h
  exact ⟨p, by rw [← List.append_assoc, hp]⟩

theorem addLog_logs_suffix (ts msg : String) (lvl : LogLevel) (s : ETLState) :
    (addLog ts msg lvl s).sessionData.logs <:+ s.sessionData.logs ++ [⟨ts, msg, lvl⟩] := by
  simp only [addLog]
  exact List.drop_suffix _ _

theorem applyLogs_suffix (calls : List (String × String × LogLevel)) :
    ∀ s : ETLState, (applyLogs calls s).sessionData.logs
      <:+ s.sessionData.logs ++ calls.map (fun c => ⟨c.1, c.2.1, c.2.2⟩) := by
  induction calls with
  | nil => intro s; simp [applyLogs]
  | cons c rest ih =>
    intro s
    rw [applyLogs_cons]
    refine (ih (addLog c.1 c.2.1 c.2.2 s)).trans ?_
    have h1 := suffix_append_same (t := rest.map fun c => (⟨c.1, c.2.1, c.2.2⟩ : LogEntry))
      (addLog_logs_suffix c.1 c.2.1 c.2.2 s)
    simpa [List.append_assoc] using h1

end Store

namespace Store

/-- C5: a failed `cleanData` or `performLookup` invocation is atomic
for the session outputs: the resulting state is the old one with only
`error` set, the log extended by the error entry, and the loading flag
cleared — every other `sessionData` field (fileId, previewData,
cleanResult, columnInsights, lookupResult, lookupInsights,
updateResult, ...) and `currentStep` are untouched. -/
theorem stage_failure_atomic (ts col : String) (o oIns : FetchOutcome ApiResult)
    (oCols : Option (List String)) (s : ETLState) (h : fetchFails o = true) :
    (∃ msg, cleanData ts o oIns oCols s
      = { s with
          isLoading := false
          error := some msg
          sessionData := { s.sessionData with
            logs := (addLog ts msg .error s).sessionData.logs } })
    ∧ (∃ msg, performLookup col ts o oIns s
      = { s with
          isLoading := false
          error := some msg
          sessionData := { s.sessionData with
            logs := (addLog ts msg .error s).sessionData.logs } }) := by
  cases o with
  | thrown m =>
    exact ⟨⟨m.getD "Cleaning failed", rfl⟩, ⟨m.getD "Lookup failed", rfl⟩⟩
  | httpError st tx =>
    exact ⟨⟨"Cleaning failed: " ++ toString st ++ " " ++ tx, rfl⟩,
           ⟨"Lookup failed: " ++ toString st ++ " " ++ tx, rfl⟩⟩
  | ok r =>
    have hrs : r.success = false := by
      simpa [fetchFails] using h
    refine ⟨⟨jsOr r.errorMsg "Cleaning failed", ?_⟩, ⟨jsOr r.errorMsg "Lookup failed", ?_⟩⟩
    · simp only [cleanData, hrs]
      rfl
    · simp only [performLookup, hrs]
      rfl

/-- C5 witness: an HTTP 500 failure against a state holding a prior
clean result leaves every stage output in place. -/
theorem stage_failure_atomic_witness :
    ∃ msg, cleanData "12:00:00" (.httpError 500 "Server Error") (.thrown none) none
      { initialState with sessionData :=
          { initialSessionData with fileId := some "f1", cleanResult := some (.mk 7) } }
      = { { initialState with sessionData :=
              { initialSessionData with fileId := some "f1", cleanResult := some (.mk 7) } } with
          isLoading := false
          error := some msg
          sessionData := { { initialSessionData with
              fileId := some "f1"
              cleanResult := some (.mk 7) } with
            logs := (addLog "12:00:00" msg .error
              { initialState with sessionData :=
                  { initialSessionData with
                    fileId := some "f1"
                    cleanResult := some (.mk 7) } }).sessionData.logs } } :=
  (stage_failure_atomic "12:00:00" "c" (.httpError 500 "Server Error") (.thrown none) none
    { initialState with sessionData :=
        { initialSessionData with fileId := some "f1", cleanResult := some (.mk 7) } }
    rfl).1

/-- C6: `resetSession` unconditionally returns the initial store state:
step 0, not loading, no error, and the pristine session data with empty
logs and empty cache. -/
theorem resetSession_initial (s : ETLState) :
    resetSession s = initialState
    ∧ (resetSession s).currentStep = 0
    ∧ (resetSession s).isLoading = false
    ∧ (resetSession s).error = none
    ∧ (resetSession s).sessionData = initialSessionData
    ∧ (resetSession s).sessionData.logs = []
    ∧ (resetSession s).sessionData.cache = [] :=
  ⟨rfl, rfl, rfl, rfl, rfl, rfl, rfl⟩

/-- C8: the activity log is a bounded append-only buffer: `addLog`
appends one entry carrying the given message and level (defaulting to
`info`) and keeps the most recent 50; the result is a suffix of the old
log plus the new entry, is a plain append while under the bound, and
after any nonempty sequence of calls the log has at most 50 entries and
is a suffix of the arrival-ordered entry list. -/
theorem addLog_bounded_buffer (ts msg : String) (lvl : LogLevel) (s : ETLState) :
    (addLog ts msg lvl s).sessionData.logs.length = min (s.sessionData.logs.length + 1) 50
    ∧ (addLog ts msg lvl s).sessionData.logs <:+ s.sessionData.logs ++ [⟨ts, msg, lvl⟩]
    ∧ (s.sessionData.logs.length < 50 →
        (addLog ts msg lvl s).sessionData.logs = s.sessionData.logs ++ [⟨ts, msg, lvl⟩])
    ∧ addLogDefault ts msg s = addLog ts msg .info s
    ∧ (∀ calls, calls ≠ [] → (applyLogs calls s).sessionData.logs.length ≤ 50)
    ∧ (∀ calls, (applyLogs calls s).sessionData.logs
        <:+ s.sessionData.logs ++ calls.map (fun c => ⟨c.1, c.2.1, c.2.2⟩)) := by
  refine ⟨addLog_logs_len ts msg lvl s, addLog_logs_suffix ts msg lvl s, ?_, rfl,
    fun calls h => applyLogs_len_le calls s h, fun calls => applyLogs_suffix calls s⟩
  intro hlt
  simp only [addLog]
  rw [show (s.sessionData.logs ++ [(⟨ts, msg, lvl⟩ : LogEntry)]).length - 50 = 0 by
    simp only [List.length_append, List.length_cons, List.length_nil]; omega]
  exact List.drop_zero _

/-- C8 witness: one call on the initial state appends the entry. -/
theorem addLog_bounded_buffer_witness :
    (addLog "09:00:00" "hello" .info initialState).sessionData.logs
      = [⟨"09:00:00", "hello", .info⟩] :=
  (addLog_bounded_buffer "09:00:00" "hello" .info initialState).2.2.1 (by decide)

end Store

namespace Store

theorem lookup_map_overwrite (k : String) (v : Dyn) :
    ∀ c : List (String × Dyn), c.any (fun p => p.1 == k) = true →
      (c.map (fun p => if p.1 == k then (k, v) else p)).lookup k = some v := by
  intro c
  induction c with
  | nil => intro h; simp at h
  | cons p c ih =>
    obtain ⟨pk, pv⟩ := p
    intro h
    cases hp : (pk == k) with
    | true =>
      rw [List.map_cons]
      rw [if_pos hp]
      rw [List.lookup]
      simp
    | false =>
      have hk : (k == pk) = false := by
        simp only [beq_eq_false_iff_ne] at hp ⊢
        exact fun e => hp e.symm
      rw [List.map_cons]
      rw [if_neg (by simp [hp])]
      rw [List.lookup]
      simp only [hk]
      apply ih
      simpa [hp] using h

theorem lookup_append_new (k : String) (v : Dyn) :
    ∀ c : List (String × Dyn), c.any (fun p => p.1 == k) = false →
      (c ++ [(k, v)]).lookup k = some v := by
  intro c
  induction c with
  | nil => intro _; simp [List.lookup]
  | cons p c ih =>
    obtain ⟨pk, pv⟩ := p
    intro h
    simp only [List.any_cons, Bool.or_eq_false_iff] at h
    have hk : (k == pk) = false := by
      have hp := h.1
      simp only [beq_eq_false_iff_ne] at hp ⊢
      exact fun e => hp e.symm
    rw [List.cons_append, List.lookup]
    simp only [hk]
    exact ih h.2

theorem lookup_cacheInsert (c : List (String × Dyn)) (k : String) (v : Dyn) :
    (cacheInsert c k v).lookup k = some v := by
  unfold cacheInsert
  cases h : c.any (fun p => p.1 == k) with
  | true => rw [if_pos rfl]; exact lookup_map_overwrite k v c h
  | false => rw [if_neg (by simp)]; exact lookup_append_new k v c h

theorem previewSheets_hit (ms tg ts : String) (o : FetchOutcome PreviewResult) (s : ETLState)
    (v : Dyn) (hv : s.sessionData.cache.lookup (previewCacheKey ms tg) = some v) :
    previewSheets ms tg ts o s
      = { s with
          isLoading := false
          error := none
          sessionData := { s.sessionData with
            masterSheet := some ms
            targetSheet := some tg
            previewData := some v
            logs := (addLog ts "Preview loaded from cache (instant!)" .info
              s).sessionData.logs } } := by
  simp only [previewSheets]
  rw [hv]
  rfl

theorem previewSheets_uncached_ok (ms tg ts : String) (r : PreviewResult) (s : ETLState)
    (hv : s.sessionData.cache.lookup (previewCacheKey ms tg) = none) (hr : r.success = true) :
    previewSheets ms tg ts (.ok r) s
      = { s with
          isLoading := false
          error := none
          sessionData := { s.sessionData with
            masterSheet := some ms
            targetSheet := some tg
            previewData := some r.previews
            cache := cacheInsert s.sessionData.cache (previewCacheKey ms tg) r.previews
            logs := (addLog ts ("Preview ready! " ++ ms ++ ": " ++ toString r.masterRows
              ++ " rows, " ++ tg ++ ": " ++ toString r.targetRows ++ " rows")
              .success s).sessionData.logs } } := by
  simp only [previewSheets]
  rw [hv]
  rw [if_pos hr]
  rfl

/-- C7: `previewSheets` caches by the composite key
`preview_` + master + `_` + target: with the key present in the cache
it fills `masterSheet`, `targetSheet` and `previewData` from the cached
value and ignores the backend entirely (any two fetch outcomes give the
same state); a successful uncached call stores the returned previews
under that key, after which a repeat call with the same two sheet names
is served from the cache. -/
theorem preview_cache_by_key (ms tg ts : String) (o : FetchOutcome PreviewResult)
    (s : ETLState) :
    (∀ v, s.sessionData.cache.lookup (previewCacheKey ms tg) = some v →
      previewSheets ms tg ts o s
        = { s with
            isLoading := false
            error := none
            sessionData := { s.sessionData with
              masterSheet := some ms
              targetSheet := some tg
              previewData := some v
              logs := (addLog ts "Preview loaded from cache (instant!)" .info
                s).sessionData.logs } }
        ∧ ∀ o2, previewSheets ms tg ts o s = previewSheets ms tg ts o2 s)
    ∧ (∀ r, s.sessionData.cache.lookup (previewCacheKey ms tg) = none → o = .ok r →
        r.success = true →
        (previewSheets ms tg ts o s).sessionData.cache.lookup (previewCacheKey ms tg)
            = some r.previews
        ∧ (previewSheets ms tg ts o s).sessionData.previewData = some r.previews
        ∧ (∀ ts2 o2 o3, previewSheets ms tg ts2 o2 (previewSheets ms tg ts o s)
            = previewSheets ms tg ts2 o3 (previewSheets ms tg ts o s))
        ∧ (∀ ts2 o2, (previewSheets ms tg ts2 o2
            (previewSheets ms tg ts o s)).sessionData.previewData = some r.previews)) := by
  constructor
  · intro v hv
    refine ⟨previewSheets_hit ms tg ts o s v hv, ?_⟩
    intro o2
    rw [previewSheets_hit ms tg ts o s v hv, previewSheets_hit ms tg ts o2 s v hv]
  · intro r hv ho hr
    subst ho
    have hv2 : (previewSheets ms tg ts (.ok r) s).sessionData.cache.lookup
        (previewCacheKey ms tg) = some r.previews := by
      rw [previewSheets_uncached_ok ms tg ts r s hv hr]
      exact lookup_cacheInsert s.sessionData.cache (previewCacheKey ms tg) r.previews
    refine ⟨hv2, ?_, ?_, ?_⟩
    · rw [previewSheets_uncached_ok ms tg ts r s hv hr]
    · intro ts2 o2 o3
      rw [previewSheets_hit ms tg ts2 o2 _ r.previews hv2,
        previewSheets_hit ms tg ts2 o3 _ r.previews hv2]
    · intro ts2 o2
      rw [previewSheets_hit ms tg ts2 o2 _ r.previews hv2]

/-- C7 witness: a cached key makes the call outcome-independent, and a
fresh successful call is cached for the repeat call. -/
theorem preview_cache_by_key_witness :
    previewSheets "M" "T" "t" (.thrown none)
        { initialState with sessionData :=
            { initialSessionData with cache := [("preview_M_T", Dyn.mk 3)] } }
      = previewSheets "M" "T" "t" (.httpError 404 "Not Found")
        { initialState with sessionData :=
            { initialSessionData with cache := [("preview_M_T", Dyn.mk 3)] } } :=
  ((preview_cache_by_key "M" "T" "t" (.thrown none)
    { initialState with sessionData :=
        { initialSessionData with cache := [("preview_M_T", Dyn.mk 3)] } }).1
    (Dyn.mk 3) (by decide)).2 (.httpError 404 "Not Found")

/-- C9: `getMaxAllowedStep` is the index of the first missing pipeline
output (7 when all are present); `goToStep` moves only inside
`[0, maxStep]`, `nextStep` only below `maxStep`, `previousStep` only
above 0, and in every other case the state is untouched. -/
theorem navigation_bounded (ts : String) (step : Int) (s : ETLState) :
    getMaxAllowedStep s = (firstMissingStage s : Int)
    ∧ (0 ≤ step ∧ step ≤ getMaxAllowedStep s → (goToStep ts step s).currentStep = step)
    ∧ (¬(0 ≤ step ∧ step ≤ getMaxAllowedStep s) → goToStep ts step s = s)
    ∧ (s.currentStep < getMaxAllowedStep s → (nextStep s).currentStep = s.currentStep + 1)
    ∧ (¬s.currentStep < getMaxAllowedStep s → nextStep s = s)
    ∧ (0 < s.currentStep → (previousStep ts s).currentStep = s.currentStep - 1)
    ∧ (¬0 < s.currentStep → previousStep ts s = s) := by
  refine ⟨?_, ?_, ?_, ?_, ?_, ?_, ?_⟩
  · unfold getMaxAllowedStep firstMissingStage stageOutputs
    cases hf : strFalsy s.sessionData.fileId <;>
      cases s.sessionData.previewData <;>
      cases s.sessionData.cleanResult <;>
      cases s.sessionData.columnInsights <;>
      cases s.sessionData.lookupResult <;>
      cases s.sessionData.lookupInsights <;>
      cases s.sessionData.updateResult <;>
      simp [List.findIdx_cons]
  · intro h
    unfold goToStep
    rw [if_pos h]
    rfl
  · intro h
    unfold goToStep
    rw [if_neg h]
  · intro h
    unfold nextStep
    rw [if_pos h]
  · intro h
    unfold nextStep
    rw [if_neg h]
  · intro h
    unfold previousStep
    rw [if_pos h]
    rfl
  · intro h
    unfold previousStep
    rw [if_neg h]

/-- C9 witness: with only a file uploaded the bound is 1, and moving to
step 1 is allowed. -/
theorem navigation_bounded_witness :
    (goToStep "t" 1
      { initialState with sessionData :=
          { initialSessionData with fileId := some "f" } }).currentStep = 1 :=
  (navigation_bounded "t" 1
    { initialState with sessionData :=
        { initialSessionData with fileId := some "f" } }).2.1 ⟨by decide, by decide⟩

/-- C10 counterexample: with `fileId` equal to the empty string (which
is not null) and two sheets loaded, the claim predicts a delegation to
`previewSheets`, but the code's JS-truthiness guard throws. -/
theorem quickPreview_claim_counterexample :
    ({ initialState with sessionData :=
        { initialSessionData with
          fileId := some ""
          sheetNames := ["Sheet1", "Sheet2"] } } : ETLState).sessionData.fileId ≠ none
    ∧ 2 ≤ ({ initialState with sessionData :=
        { initialSessionData with
          fileId := some ""
          sheetNames := ["Sheet1", "Sheet2"] } } : ETLState).sessionData.sheetNames.length
    ∧ (quickPreview "t" (.thrown none)
        { initialState with sessionData :=
            { initialSessionData with
              fileId := some ""
              sheetNames := ["Sheet1", "Sheet2"] } }).1
      = some "Need at least 2 sheets for quick preview" := by
  refine ⟨by decide, by decide, by decide⟩

/-- C10 (amended): when `fileId` is null or empty, or fewer than two
sheet names are loaded, `quickPreview` throws
`Need at least 2 sheets for quick preview` leaving the store unchanged;
otherwise it delegates to `previewSheets` on exactly the first two
entries of `sheetNames`, in order. -/
theorem quickPreview_guard (ts : String) (o : FetchOutcome PreviewResult) (s : ETLState) :
    (strFalsy s.sessionData.fileId = true ∨ s.sessionData.sheetNames.length < 2 →
      quickPreview ts o s = (some "Need at least 2 sheets for quick preview", s))
    ∧ (∀ a b rest, strFalsy s.sessionData.fileId = false →
        s.sessionData.sheetNames = a :: b :: rest →
        quickPreview ts o s = (none, previewSheets a b ts o s)) := by
  constructor
  · intro h
    unfold quickPreview
    rw [if_pos h]
  · intro a b rest hf hs
    have hcond : ¬(strFalsy s.sessionData.fileId = true
        ∨ s.sessionData.sheetNames.length < 2) := by
      rintro (hc | hc)
      · rw [hf] at hc
        simp at hc
      · rw [hs] at hc
        simp at hc
        omega
    unfold quickPreview
    rw [if_neg hcond, hs]
    rfl

/-- C10 witness: a nonempty `fileId` and three sheets delegate to
`previewSheets` on the first two. -/
theorem quickPreview_guard_witness :
    quickPreview "t" (.thrown none)
        { initialState with sessionData :=
            { initialSessionData with
              fileId := some "f"
              sheetNames := ["A", "B", "C"] } }
      = (none, previewSheets "A" "B" "t" (.thrown none)
          { initialState with sessionData :=
              { initialSessionData with
                fileId := some "f"
                sheetNames := ["A", "B", "C"] } }) :=
  (quickPreview_guard "t" (.thrown none)
    { initialState with sessionData :=
        { initialSessionData with
          fileId := some "f"
          sheetNames := ["A", "B", "C"] } }).2 "A" "B" ["C"] (by decide) rfl

end Store
